import Mathlib

/-!
Verification development for the GridKey BESS MILP scheduling kernel
(`src/backend/gridkey_optimizer`).  The data adapter, the Pyomo model
builders (Models I, II, III, III-Renew), the solution extractor and the
service-layer validators are shallowly embedded as executable Lean
definitions over `ℚ`; prices that the source represents as `NaN` are
embedded as `Option ℚ` with `none` standing for `NaN`.  A Pyomo model is
embedded as a list of named Boolean constraint checks over a solution
record, so that the source's `del_component` / re-declare sequence in the
Model II builder is traceable.
-/

namespace GridKey

/-- Numeric value of a binary (Pyomo `domain=Binary`) variable. -/
def b2q (b : Bool) : ℚ := if b then 1 else 0

/-- A constraint family holds at every timestep `0, …, n-1`. -/
def allT (n : ℕ) (f : ℕ → Bool) : Bool := (List.range n).all f

/-- Segment index list `[1, …, J]` (Pyomo `model.J = Set(range(1, J+1))`). -/
def segs (J : ℕ) : List ℕ := (List.range J).map (· + 1)

/-- A constraint family holds for every segment `1, …, J`. -/
def allSeg (J : ℕ) (f : ℕ → Bool) : Bool := (segs J).all f

theorem allT_imp {n : ℕ} {f : ℕ → Bool} (h : allT n f = true) {t : ℕ}
    (ht : t < n) : f t = true := by
  have := List.all_eq_true.mp h t (List.mem_range.mpr ht)
  exact this

theorem allSeg_imp {J : ℕ} {f : ℕ → Bool} (h : allSeg J f = true) {j : ℕ}
    (h1 : 1 ≤ j) (h2 : j ≤ J) : f j = true := by
  refine List.all_eq_true.mp h j ?_
  simp only [segs, List.mem_map, List.mem_range]
  exact ⟨j - 1, by omega, by omega⟩

/-! ## Data model

`CountryData` embeds the canonical per-timestep table produced by
`DataAdapter.to_country_data` together with the index maps the builder
precomputes (`block_to_times` is not needed by the claims; `time_to_block`
is `blockMap`).  aFRR energy prices are `Option ℚ`: `none` is `NaN`. -/

structure CountryData where
  nT : ℕ
  priceDayAhead : ℕ → ℚ
  priceAfrrEnergyPos : ℕ → Option ℚ
  priceAfrrEnergyNeg : ℕ → Option ℚ
  priceFcr : ℕ → ℚ
  priceAfrrPos : ℕ → ℚ
  priceAfrrNeg : ℕ → ℚ
  wAfrrPos : ℕ → ℚ
  wAfrrNeg : ℕ → ℚ
  blockMap : ℕ → ℕ
  blocks : List ℕ
  days : List ℕ
  dayToTimes : ℕ → List ℕ

/-- Battery specification dictionary (`BESSOptimizerModelI.__init__`,
`self.battery_params`). -/
structure BatteryParams where
  capacityKwh : ℚ
  efficiency : ℚ
  socMin : ℚ
  socMax : ℚ
  initialSoc : ℚ

/-- Embeds `self.battery_params` defaults in `BESSOptimizerModelI.__init__`:
capacity 4500 kWh, efficiency 0.95, SOC range [0, 1], initial SOC 0.5. -/
def defaultBatteryParams : BatteryParams :=
  { capacityKwh := 4500, efficiency := 19/20, socMin := 0, socMax := 1,
    initialSoc := 1/2 }

/-- Pyomo `Param`s installed by `build_optimization_model`. -/
structure ModelParams where
  Enom : ℚ
  PmaxConfig : ℚ
  etaCh : ℚ
  etaDis : ℚ
  socMin : ℚ
  socMax : ℚ
  EsocInit : ℚ
  dt : ℚ
  tau : ℚ
  db : ℚ
  minBidFcr : ℚ
  minBidAfrr : ℚ
  maxAsRatio : ℚ

/-- Parameter resolution in `BESSOptimizerModelI.build_optimization_model`:
`P_max_config = c_rate * capacity_kwh`, `eta_ch = eta_dis = efficiency`,
`E_soc_init = initial_soc * capacity_kwh`; the market constants come from
`self.market_params` (`time_step_hours` 0.25, `reserve_duration_hours`
0.25, `block_duration_hours` 4.0, min bids 1.0 MW) and `max_as_ratio`
defaults to 0.8. -/
def mkModelParams (bp : BatteryParams) (cRate : ℚ) : ModelParams :=
  { Enom := bp.capacityKwh
    PmaxConfig := cRate * bp.capacityKwh
    etaCh := bp.efficiency
    etaDis := bp.efficiency
    socMin := bp.socMin
    socMax := bp.socMax
    EsocInit := bp.initialSoc * bp.capacityKwh
    dt := 1/4
    tau := 1/4
    db := 4
    minBidFcr := 1
    minBidAfrr := 1
    maxAsRatio := 4/5 }

/-- Primal assignment to every decision variable that any of the four
model variants declares.  Fields unused by a variant are simply ignored
by that variant's constraint checks. -/
structure Sol where
  pCh : ℕ → ℚ
  pDis : ℕ → ℚ
  pAfrrPosE : ℕ → ℚ
  pAfrrNegE : ℕ → ℚ
  pTotalCh : ℕ → ℚ
  pTotalDis : ℕ → ℚ
  eSoc : ℕ → ℚ
  cFcr : ℕ → ℚ
  cAfrrPos : ℕ → ℚ
  cAfrrNeg : ℕ → ℚ
  yTotalCh : ℕ → Bool
  yTotalDis : ℕ → Bool
  yFcr : ℕ → Bool
  yAfrrPos : ℕ → Bool
  yAfrrNeg : ℕ → Bool
  pChJ : ℕ → ℕ → ℚ
  pDisJ : ℕ → ℕ → ℚ
  eSocJ : ℕ → ℕ → ℚ
  zSeg : ℕ → ℕ → Bool
  lambdaCal : ℕ → ℕ → ℚ
  cCalCost : ℕ → ℚ
  pSelf : ℕ → ℚ
  pExport : ℕ → ℚ
  pCurtail : ℕ → ℚ

/-- A named constraint block of a Pyomo model. -/
abbrev Check := String × (Sol → Bool)

/-- A primal point is feasible when every constraint block of the built
model accepts it. -/
def Feasible (cs : List Check) (s : Sol) : Bool := cs.all fun c => c.2 s

/-! ## Input adapter (`service/adapter.py`) -/

/-- Per-entry semantics of
`df['price_afrr_energy_pos'].replace(0, np.nan)` in
`DataAdapter.to_country_data`: a value exactly equal to `0` becomes `NaN`
(`none`); a `NaN` stays `NaN`; every other value is kept. -/
def replaceZeroWithNaN : Option ℚ → Option ℚ
  | none => none
  | some x => if x = 0 then none else some x

/-- Embeds `TIMESTEPS_PER_BLOCK` in `service/adapter.py` (4-hour blocks on the
15-minute grid). -/
def TIMESTEPS_PER_BLOCK : ℕ := 16

/-- Embeds `DataAdapter._expand_block_prices`: repeat each 4-hour block price 16
times, forward-fill the last price (or `0.0` for an empty input) up to
`nTimesteps`, and truncate to exactly `nTimesteps` entries. -/
def expandBlockPrices (blockPrices : List ℚ) (nTimesteps : ℕ) : List ℚ :=
  let expanded := blockPrices.flatMap fun price =>
    List.replicate TIMESTEPS_PER_BLOCK price
  let padded :=
    if expanded.length < nTimesteps then
      expanded ++ List.replicate (nTimesteps - expanded.length)
        ((expanded.getLast?).getD 0)
    else expanded
  padded.take nTimesteps

/-! ## Service-layer validators -/

/-- Embeds `OptimizationInput.c_rate_must_be_positive` (`service/models.py`):
raises `ValueError` iff `v <= 0`, otherwise returns `v`. -/
def c_rate_must_be_positive (v : ℚ) : Except String ℚ :=
  if v ≤ 0 then Except.error "c_rate must be positive" else Except.ok v

/-- Pydantic bound on `OptimizeRequest.c_rate` in
`services/optimizer.py`: `Field(0.5, gt=0, le=2.0)`. -/
def optimizeRequestCRateValid (v : ℚ) : Bool :=
  decide (0 < v) && decide (v ≤ 2)

/-! ## Solution extractor and result builder -/

/-- Pyomo termination conditions relevant to
`BESSOptimizerModelI.extract_solution`. -/
inductive TerminationCondition where
  | optimal
  | feasible
  | infeasible
  | maxTimeLimit
  | error
  | unknown
deriving DecidableEq

/-- Status computed by `BESSOptimizerModelI.extract_solution`: `"error"`
when the results object carries an `error` attribute (the exception path
of `solve_model`), `"optimal"` / `"feasible"` for those termination
conditions, and `"failed"` for every other termination condition. -/
def extractStatus (hasErrorAttr : Bool) (tc : TerminationCondition) :
    String :=
  if hasErrorAttr then "error"
  else
    match tc with
    | .optimal => "optimal"
    | .feasible => "feasible"
    | _ => "failed"

/-- Embeds `OptimizerService._build_result`: for a solution whose status is
`"error"` or `"failed"` it emits a minimal result with an empty schedule
and the solution's status; otherwise it keeps the status and builds the
full `n`-entry schedule.  Returned as (status, schedule length). -/
def buildResultStatusSchedule (solStatus : String) (n : ℕ) :
    String × ℕ :=
  if solStatus = "error" ∨ solStatus = "failed" then (solStatus, 0)
  else (solStatus, n)

/-! ## Model I constraint blocks
(`BESSOptimizerModelI.build_optimization_model`) -/

/-- Variable bounds of the Model I power and capacity variables
(`bounds=(0, P_max_config)` resp. `bounds=(0, P_max_config/1000)`). -/
def varBoundsCheck (d : CountryData) (p : ModelParams) (s : Sol) : Bool :=
  (allT d.nT fun t =>
    decide (0 ≤ s.pCh t) && decide (s.pCh t ≤ p.PmaxConfig) &&
    decide (0 ≤ s.pDis t) && decide (s.pDis t ≤ p.PmaxConfig) &&
    decide (0 ≤ s.pAfrrPosE t) && decide (s.pAfrrPosE t ≤ p.PmaxConfig) &&
    decide (0 ≤ s.pAfrrNegE t) && decide (s.pAfrrNegE t ≤ p.PmaxConfig) &&
    decide (0 ≤ s.pTotalCh t) && decide (s.pTotalCh t ≤ p.PmaxConfig) &&
    decide (0 ≤ s.pTotalDis t) && decide (s.pTotalDis t ≤ p.PmaxConfig)) &&
  (d.blocks.all fun b =>
    decide (0 ≤ s.cFcr b) && decide (s.cFcr b ≤ p.PmaxConfig / 1000) &&
    decide (0 ≤ s.cAfrrPos b) &&
    decide (s.cAfrrPos b ≤ p.PmaxConfig / 1000) &&
    decide (0 ≤ s.cAfrrNeg b) &&
    decide (s.cAfrrNeg b ≤ p.PmaxConfig / 1000))

/-- Bounds of the Model I scalar SOC variable `model.e_soc`
(`bounds=(soc_min*capacity, soc_max*capacity)`); kept as a separate block
because Model II deletes this variable. -/
def eSocBoundsCheck (d : CountryData) (p : ModelParams) (s : Sol) :
    Bool :=
  allT d.nT fun t =>
    decide (p.socMin * p.Enom ≤ s.eSoc t) &&
    decide (s.eSoc t ≤ p.socMax * p.Enom)

/-- Cst-0 (`no_bid_if_no_afrr_pos_activation_rule`): when the aFRR+
energy price at `t` is `NaN` the bid is forced to zero, otherwise the
constraint is skipped. -/
def cst0PosCheck (d : CountryData) (s : Sol) : Bool :=
  allT d.nT fun t =>
    match d.priceAfrrEnergyPos t with
    | none => decide (s.pAfrrPosE t = 0)
    | some _ => true

/-- Cst-0 (`no_bid_if_no_afrr_neg_activation_rule`), negative side. -/
def cst0NegCheck (d : CountryData) (s : Sol) : Bool :=
  allT d.nT fun t =>
    match d.priceAfrrEnergyNeg t with
    | none => decide (s.pAfrrNegE t = 0)
    | some _ => true

/-- Embeds `total_ch_def_rule`: `p_total_ch = p_ch + p_afrr_neg_e`. -/
def totalChDefCheck (d : CountryData) (s : Sol) : Bool :=
  allT d.nT fun t =>
    decide (s.pTotalCh t = s.pCh t + s.pAfrrNegE t)

/-- Embeds `total_dis_def_rule`: `p_total_dis = p_dis + p_afrr_pos_e`. -/
def totalDisDefCheck (d : CountryData) (s : Sol) : Bool :=
  allT d.nT fun t =>
    decide (s.pTotalDis t = s.pDis t + s.pAfrrPosE t)

/-- Cst-1 (`soc_dynamics_rule`): SOC balance with initial condition
`E_soc_init` at the first timestep. -/
def socDynamicsCheck (d : CountryData) (p : ModelParams) (s : Sol) :
    Bool :=
  allT d.nT fun t =>
    if t = 0 then
      decide (s.eSoc t = p.EsocInit +
        (p.etaCh * s.pTotalCh t - s.pTotalDis t / p.etaDis) * p.dt)
    else
      decide (s.eSoc t = s.eSoc (t - 1) +
        (p.etaCh * s.pTotalCh t - s.pTotalDis t / p.etaDis) * p.dt)

/-- Cst-3 (`total_ch_binary_rule`): `p_total_ch ≤ y_total_ch * P_max`. -/
def totalChBinaryCheck (d : CountryData) (p : ModelParams) (s : Sol) :
    Bool :=
  allT d.nT fun t =>
    decide (s.pTotalCh t ≤ b2q (s.yTotalCh t) * p.PmaxConfig)

/-- Cst-3 (`total_dis_binary_rule`). -/
def totalDisBinaryCheck (d : CountryData) (p : ModelParams) (s : Sol) :
    Bool :=
  allT d.nT fun t =>
    decide (s.pTotalDis t ≤ b2q (s.yTotalDis t) * p.PmaxConfig)

/-- Cst-3 (`no_simultaneous_rule`): `y_total_ch + y_total_dis ≤ 1`. -/
def noSimultaneousCheck (d : CountryData) (s : Sol) : Bool :=
  allT d.nT fun t =>
    decide (b2q (s.yTotalCh t) + b2q (s.yTotalDis t) ≤ 1)

/-- Cst-4 (`power_dis_reserve_limit_rule`). -/
def powerDisReserveLimitCheck (d : CountryData) (p : ModelParams)
    (s : Sol) : Bool :=
  allT d.nT fun t =>
    decide (s.pTotalDis t + 1000 * s.cFcr (d.blockMap t) +
      1000 * s.cAfrrPos (d.blockMap t) ≤ p.PmaxConfig)

/-- Cst-4 (`power_ch_reserve_limit_rule`). -/
def powerChReserveLimitCheck (d : CountryData) (p : ModelParams)
    (s : Sol) : Bool :=
  allT d.nT fun t =>
    decide (s.pTotalCh t + 1000 * s.cFcr (d.blockMap t) +
      1000 * s.cAfrrNeg (d.blockMap t) ≤ p.PmaxConfig)

/-- Cst-5 (`daily_cycle_rule`), only emitted when a daily cycle limit is
passed. -/
def dailyCycleCheck (d : CountryData) (p : ModelParams) (nCycles : ℚ)
    (s : Sol) : Bool :=
  d.days.all fun dy =>
    decide ((((d.dayToTimes dy).map fun t =>
      s.pDis t / p.etaDis * p.dt).sum) ≤ nCycles * p.Enom)

/-- Cst-6 (`energy_reserve_pos_rule`), Model I version over the scalar
SOC variable. -/
def energyReservePosCheck (d : CountryData) (p : ModelParams) (s : Sol) :
    Bool :=
  allT d.nT fun t =>
    decide ((1000 * s.cFcr (d.blockMap t) +
        1000 * s.cAfrrPos (d.blockMap t)) * p.tau / p.etaDis ≤
      s.eSoc t - p.socMin * p.Enom)

/-- Cst-6 (`energy_reserve_neg_rule`), Model I version over the scalar
SOC variable. -/
def energyReserveNegCheck (d : CountryData) (p : ModelParams) (s : Sol) :
    Bool :=
  allT d.nT fun t =>
    decide ((1000 * s.cFcr (d.blockMap t) +
        1000 * s.cAfrrNeg (d.blockMap t)) * p.tau * p.etaCh ≤
      p.socMax * p.Enom - s.eSoc t)

/-- Cst-7 (`as_market_exclusivity_rule`). -/
def asMarketExclusivityCheck (d : CountryData) (s : Sol) : Bool :=
  d.blocks.all fun b =>
    decide (b2q (s.yFcr b) + b2q (s.yAfrrPos b) + b2q (s.yAfrrNeg b) ≤ 1)

/-- Cst-11 (`max_as_reservation_rule`), emitted only when
`max_as_ratio < 1`. -/
def maxAsReservationCheck (d : CountryData) (p : ModelParams) (s : Sol) :
    Bool :=
  d.blocks.all fun b =>
    decide (s.cFcr b + s.cAfrrPos b + s.cAfrrNeg b ≤
      p.maxAsRatio * (p.PmaxConfig / 1000))

/-- Cst-8a (`cross_market_exclusivity_rule_1`). -/
def crossMarketExclusivity1Check (d : CountryData) (s : Sol) : Bool :=
  allT d.nT fun t =>
    decide (b2q (s.yTotalDis t) + b2q (s.yFcr (d.blockMap t)) +
      b2q (s.yAfrrNeg (d.blockMap t)) ≤ 1)

/-- Cst-8b (`cross_market_exclusivity_rule_2`). -/
def crossMarketExclusivity2Check (d : CountryData) (s : Sol) : Bool :=
  allT d.nT fun t =>
    decide (b2q (s.yTotalCh t) + b2q (s.yFcr (d.blockMap t)) +
      b2q (s.yAfrrPos (d.blockMap t)) ≤ 1)

/-- Cst-9i/j (`fcr_min_bid_rule` / `fcr_max_bid_rule`). -/
def fcrBidCheck (d : CountryData) (p : ModelParams) (s : Sol) : Bool :=
  d.blocks.all fun b =>
    decide (s.cFcr b ≥ b2q (s.yFcr b) * p.minBidFcr) &&
    decide (s.cFcr b ≤ b2q (s.yFcr b) * (p.PmaxConfig / 1000))

/-- Cst-9k/l (`afrr_pos_min_bid_rule` / `afrr_pos_max_bid_rule`). -/
def afrrPosBidCheck (d : CountryData) (p : ModelParams) (s : Sol) :
    Bool :=
  d.blocks.all fun b =>
    decide (s.cAfrrPos b ≥ b2q (s.yAfrrPos b) * p.minBidAfrr) &&
    decide (s.cAfrrPos b ≤ b2q (s.yAfrrPos b) * (p.PmaxConfig / 1000))

/-- Cst-9m/n (`afrr_neg_min_bid_rule` / `afrr_neg_max_bid_rule`). -/
def afrrNegBidCheck (d : CountryData) (p : ModelParams) (s : Sol) :
    Bool :=
  d.blocks.all fun b =>
    decide (s.cAfrrNeg b ≥ b2q (s.yAfrrNeg b) * p.minBidAfrr) &&
    decide (s.cAfrrNeg b ≤ b2q (s.yAfrrNeg b) * (p.PmaxConfig / 1000))

/-- Constraint blocks installed by
`BESSOptimizerModelI.build_optimization_model`, in source order.
Component names match the Pyomo attribute names. -/
def modelIChecks (d : CountryData) (p : ModelParams)
    (dailyCycleLimit : Option ℚ) : List Check :=
  [("var_bounds", varBoundsCheck d p),
   ("e_soc_bounds", eSocBoundsCheck d p),
   ("no_bid_if_no_afrr_pos_activation", cst0PosCheck d),
   ("no_bid_if_no_afrr_neg_activation", cst0NegCheck d),
   ("total_ch_def", totalChDefCheck d),
   ("total_dis_def", totalDisDefCheck d),
   ("soc_dynamics", socDynamicsCheck d p),
   ("total_ch_binary", totalChBinaryCheck d p),
   ("total_dis_binary", totalDisBinaryCheck d p),
   ("no_simultaneous", noSimultaneousCheck d)] ++
  [("power_dis_reserve_limit", powerDisReserveLimitCheck d p),
   ("power_ch_reserve_limit", powerChReserveLimitCheck d p)] ++
  (match dailyCycleLimit with
   | some n => [("daily_cycle_limit", dailyCycleCheck d p n)]
   | none => []) ++
  [("energy_reserve_pos", energyReservePosCheck d p),
   ("energy_reserve_neg", energyReserveNegCheck d p),
   ("as_market_exclusivity", asMarketExclusivityCheck d)] ++
  (if p.maxAsRatio < 1 then
    [("max_as_reservation", maxAsReservationCheck d p)]
   else []) ++
  [("cross_market_exclusivity1", crossMarketExclusivity1Check d),
   ("cross_market_exclusivity2", crossMarketExclusivity2Check d),
   ("fcr_bid", fcrBidCheck d p),
   ("afrr_pos_bid", afrrPosBidCheck d p),
   ("afrr_neg_bid", afrrNegBidCheck d p)]

/-! ## Objective expressions (Model I) -/

/-- Embeds `da_profit_rule`: `Σ_t (P_DA/1000·p_dis − P_DA/1000·p_ch)·Δt`. -/
def profit_da (d : CountryData) (p : ModelParams) (s : Sol) : ℚ :=
  ((List.range d.nT).map fun t =>
    (d.priceDayAhead t / 1000 * s.pDis t -
     d.priceDayAhead t / 1000 * s.pCh t) * p.dt).sum

/-- The aFRR energy price Pyomo `Param` (`NaN` is initialised to `0` in
`build_optimization_model`, lines 511-512). -/
def afrrEPriceParam (price : ℕ → Option ℚ) (t : ℕ) : ℚ :=
  (price t).getD 0

/-- Embeds `afrr_energy_profit_rule`: both directions contribute additively. -/
def profit_afrr_energy (d : CountryData) (p : ModelParams) (s : Sol) :
    ℚ :=
  ((List.range d.nT).map fun t =>
    (afrrEPriceParam d.priceAfrrEnergyPos t / 1000 * s.pAfrrPosE t *
       d.wAfrrPos t +
     afrrEPriceParam d.priceAfrrEnergyNeg t / 1000 * s.pAfrrNegE t *
       d.wAfrrNeg t) * p.dt).sum

/-- Embeds `as_capacity_profit_rule`: `Σ_b (P_FCR·c_fcr + P_aFRR_pos·c_afrr_pos
+ P_aFRR_neg·c_afrr_neg)`, with no block-duration factor. -/
def profit_as_capacity (d : CountryData) (s : Sol) : ℚ :=
  (d.blocks.map fun b =>
    d.priceFcr b * s.cFcr b + d.priceAfrrPos b * s.cAfrrPos b +
    d.priceAfrrNeg b * s.cAfrrNeg b).sum

/-- Embeds `objective_rule` of Model I. -/
def objectiveI (d : CountryData) (p : ModelParams) (s : Sol) : ℚ :=
  profit_da d p s + profit_afrr_energy d p s + profit_as_capacity d s

/-! ## Model II: cyclic aging (`BESSOptimizerModelII`) -/

/-- The `cyclic_aging` section of the unified YAML config plus the two
optional keys `BESSOptimizerModelII.__init__` reads from it. -/
structure AgingConfig where
  costs : List ℚ
  requireSequentialSegmentActivationCfg : Option Bool
  lifoEpsilonKwhCfg : Option ℚ

/-- Embeds `self.degradation_params` as assembled in
`BESSOptimizerModelII.__init__`. -/
structure DegradationParams where
  numSegments : ℕ
  segmentCapacityKwh : ℚ
  marginalCosts : List ℚ
  alpha : ℚ
  requireSequentialSegmentActivation : Bool
  lifoEpsilonKwh : ℚ

/-- Embeds `BESSOptimizerModelII.__init__`: `num_segments = len(costs)`,
`segment_capacity = capacity_kwh / num_segments`; the strict-mode flag is
`degradation_config.get('require_sequential_segment_activation',
require_sequential_segment_activation)` (config value first, then the
constructor argument, whose Python default is `True`); the LIFO epsilon
is `degradation_config.get('lifo_epsilon_kwh', 5.0)`. -/
def mkDegradationParams (bp : BatteryParams) (cfg : AgingConfig)
    (alpha : ℚ) (requireSeqArg : Bool) : DegradationParams :=
  { numSegments := cfg.costs.length
    segmentCapacityKwh := bp.capacityKwh / (cfg.costs.length : ℚ)
    marginalCosts := cfg.costs
    alpha := alpha
    requireSequentialSegmentActivation :=
      cfg.requireSequentialSegmentActivationCfg.getD requireSeqArg
    lifoEpsilonKwh := cfg.lifoEpsilonKwhCfg.getD 5 }

/-- Python default of the `require_sequential_segment_activation`
constructor parameter (signature of `BESSOptimizerModelII.__init__`). -/
def requireSeqPythonDefault : Bool := true

/-- Embeds `model.c_cost[j]` (marginal cyclic degradation cost of segment `j`,
1-indexed). -/
def cCost (dp : DegradationParams) (j : ℕ) : ℚ :=
  dp.marginalCosts.getD (j - 1) 0

/-- Aggregate SOC expression of Model II
(`model.e_soc = Expression(… sum(e_soc_j[t, j] for j in J))`). -/
def aggSoc (dp : DegradationParams) (s : Sol) (t : ℕ) : ℚ :=
  ((segs dp.numSegments).map (s.eSocJ t)).sum

/-- Embeds `initial_segment_soc`: top-down initialisation
`min(E_seg, max(0, E_soc_init − E_seg·(j−1)))`. -/
def initialSegmentSoc (p : ModelParams) (dp : DegradationParams)
    (j : ℕ) : ℚ :=
  min dp.segmentCapacityKwh
    (max 0 (p.EsocInit - dp.segmentCapacityKwh * ((j : ℚ) - 1)))

/-- Bounds of the Model II segment variables (`bounds=(0, P_max_config)`
for powers, `bounds=(0, segment_capacity)` for segment SOC). -/
def segmentVarBoundsCheck (d : CountryData) (p : ModelParams)
    (dp : DegradationParams) (s : Sol) : Bool :=
  allT d.nT fun t => allSeg dp.numSegments fun j =>
    decide (0 ≤ s.pChJ t j) && decide (s.pChJ t j ≤ p.PmaxConfig) &&
    decide (0 ≤ s.pDisJ t j) && decide (s.pDisJ t j ≤ p.PmaxConfig) &&
    decide (0 ≤ s.eSocJ t j) &&
    decide (s.eSocJ t j ≤ dp.segmentCapacityKwh)

/-- Cst-6a redefined (`energy_reserve_pos_rule_v2`): reserve bound
against the aggregate segment SOC. -/
def energyReservePosV2Check (d : CountryData) (p : ModelParams)
    (dp : DegradationParams) (s : Sol) : Bool :=
  allT d.nT fun t =>
    decide ((1000 * s.cFcr (d.blockMap t) +
        1000 * s.cAfrrPos (d.blockMap t)) * p.tau / p.etaDis ≤
      aggSoc dp s t - p.socMin * p.Enom)

/-- Cst-6b redefined (`energy_reserve_neg_rule_v2`). -/
def energyReserveNegV2Check (d : CountryData) (p : ModelParams)
    (dp : DegradationParams) (s : Sol) : Bool :=
  allT d.nT fun t =>
    decide ((1000 * s.cFcr (d.blockMap t) +
        1000 * s.cAfrrNeg (d.blockMap t)) * p.tau * p.etaCh ≤
      p.socMax * p.Enom - aggSoc dp s t)

/-- Embeds `total_charge_power_rule`: `p_total_ch = Σ_j p_ch_j`. -/
def totalChargeAggregationCheck (d : CountryData)
    (dp : DegradationParams) (s : Sol) : Bool :=
  allT d.nT fun t =>
    decide (s.pTotalCh t = ((segs dp.numSegments).map (s.pChJ t)).sum)

/-- Embeds `total_discharge_power_rule`: `p_total_dis = Σ_j p_dis_j`. -/
def totalDischargeAggregationCheck (d : CountryData)
    (dp : DegradationParams) (s : Sol) : Bool :=
  allT d.nT fun t =>
    decide (s.pTotalDis t = ((segs dp.numSegments).map (s.pDisJ t)).sum)

/-- Embeds `segment_soc_dynamics_rule` with top-down initialisation at the first
timestep. -/
def segmentSocDynamicsCheck (d : CountryData) (p : ModelParams)
    (dp : DegradationParams) (s : Sol) : Bool :=
  allT d.nT fun t => allSeg dp.numSegments fun j =>
    if t = 0 then
      decide (s.eSocJ t j = initialSegmentSoc p dp j +
        (s.pChJ t j * p.etaCh - s.pDisJ t j / p.etaDis) * p.dt)
    else
      decide (s.eSocJ t j = s.eSocJ (t - 1) j +
        (s.pChJ t j * p.etaCh - s.pDisJ t j / p.etaDis) * p.dt)

/-- Embeds `stacked_tank_rule`: `e_soc_j[t,j] ≥ e_soc_j[t,j+1]` (skipped at the
deepest segment). -/
def stackedTankOrderingCheck (d : CountryData) (dp : DegradationParams)
    (s : Sol) : Bool :=
  allT d.nT fun t => allSeg dp.numSegments fun j =>
    if j = dp.numSegments then true
    else decide (s.eSocJ t j ≥ s.eSocJ t (j + 1))

/-- Embeds `segment_activation_upper_rule`:
`e_soc_j[t,j] ≤ E_seg·z_segment_active[t,j]`. -/
def segmentActivationUpperCheck (d : CountryData)
    (dp : DegradationParams) (s : Sol) : Bool :=
  allT d.nT fun t => allSeg dp.numSegments fun j =>
    decide (s.eSocJ t j ≤ dp.segmentCapacityKwh * b2q (s.zSeg t j))

/-- Embeds `segment_lifo_fullness_rule`: for `j ≥ 2`,
`e_soc_j[t,j−1] ≥ (E_seg − ε)·z_segment_active[t,j]`. -/
def segmentLifoFullnessCheck (d : CountryData) (dp : DegradationParams)
    (s : Sol) : Bool :=
  allT d.nT fun t => allSeg dp.numSegments fun j =>
    if j = 1 then true
    else
      decide (s.eSocJ t (j - 1) ≥
        (dp.segmentCapacityKwh - dp.lifoEpsilonKwh) * b2q (s.zSeg t j))

/-- Strict mode (`segment_charge_activation_rule`):
`p_ch_j ≤ P_max·z_segment_active`. -/
def segmentChargeActivationCheck (d : CountryData) (p : ModelParams)
    (dp : DegradationParams) (s : Sol) : Bool :=
  allT d.nT fun t => allSeg dp.numSegments fun j =>
    decide (s.pChJ t j ≤ p.PmaxConfig * b2q (s.zSeg t j))

/-- Strict mode (`segment_discharge_activation_rule`). -/
def segmentDischargeActivationCheck (d : CountryData) (p : ModelParams)
    (dp : DegradationParams) (s : Sol) : Bool :=
  allT d.nT fun t => allSeg dp.numSegments fun j =>
    decide (s.pDisJ t j ≤ p.PmaxConfig * b2q (s.zSeg t j))

/-- Components removed by `BESSOptimizerModelII.build_optimization_model`
via `del_component`: the scalar SOC dynamics (Cst-1), the scalar `e_soc`
variable (hence its bounds), and the two Model I reserve constraints
(re-declared afterwards against the aggregate expression). -/
def deletedInModelII : List String :=
  ["soc_dynamics", "e_soc_bounds", "energy_reserve_pos",
   "energy_reserve_neg"]

/-- Constraint blocks of Model II: the parent model is built with the
daily-cycle limit disabled, the components in `deletedInModelII` are
removed, and the segment blocks are appended in source order, the strict
activation pair only when `require_sequential_segment_activation`
resolves to `true`. -/
def modelIIChecks (d : CountryData) (p : ModelParams)
    (dp : DegradationParams) : List Check :=
  ((modelIChecks d p none).filter fun c =>
    !(deletedInModelII.contains c.1)) ++
  [("segment_var_bounds", segmentVarBoundsCheck d p dp),
   ("energy_reserve_pos", energyReservePosV2Check d p dp),
   ("energy_reserve_neg", energyReserveNegV2Check d p dp),
   ("total_charge_aggregation", totalChargeAggregationCheck d dp),
   ("total_discharge_aggregation", totalDischargeAggregationCheck d dp),
   ("segment_soc_dynamics", segmentSocDynamicsCheck d p dp),
   ("stacked_tank_ordering", stackedTankOrderingCheck d dp),
   ("segment_activation_upper", segmentActivationUpperCheck d dp),
   ("segment_lifo_fullness", segmentLifoFullnessCheck d dp)] ++
  (if dp.requireSequentialSegmentActivation then
    [("segment_charge_activation", segmentChargeActivationCheck d p dp),
     ("segment_discharge_activation",
       segmentDischargeActivationCheck d p dp)]
   else [])

/-- Embeds `cost_cyclic_rule`:
`Σ_t Σ_j c_cost[j]·(p_dis_j[t,j]/η_dis)·Δt`. -/
def cost_cyclic (d : CountryData) (p : ModelParams)
    (dp : DegradationParams) (s : Sol) : ℚ :=
  ((List.range d.nT).map fun t =>
    ((segs dp.numSegments).map fun j =>
      cCost dp j * (s.pDisJ t j / p.etaDis) * p.dt).sum).sum

/-- Model II objective:
`profit_da + profit_afrr_energy + profit_as_capacity − α·cost_cyclic`. -/
def objectiveII (d : CountryData) (p : ModelParams)
    (dp : DegradationParams) (s : Sol) : ℚ :=
  profit_da d p s + profit_afrr_energy d p s + profit_as_capacity d s -
    dp.alpha * cost_cyclic d p dp s

/-! ## Model III: calendar aging (`BESSOptimizerModelIII`) -/

/-- Calendar-aging breakpoint table (`self.calendar_params`). -/
structure CalendarParams where
  socBreakpointsKwh : List ℚ
  costBreakpointsEurHr : List ℚ

/-- Embeds `model.SOC_point[i]` (1-indexed). -/
def socPoint (cp : CalendarParams) (i : ℕ) : ℚ :=
  cp.socBreakpointsKwh.getD (i - 1) 0

/-- Embeds `model.Cost_point[i]` (1-indexed). -/
def costPoint (cp : CalendarParams) (i : ℕ) : ℚ :=
  cp.costBreakpointsEurHr.getD (i - 1) 0

/-- Number of calendar breakpoints. -/
def numBreakpoints (cp : CalendarParams) : ℕ :=
  cp.socBreakpointsKwh.length

/-- Bounds of the Model III calendar variables
(`lambda_cal ∈ [0,1]`, `c_cal_cost ≥ 0`). -/
def calendarVarBoundsCheck (d : CountryData) (cp : CalendarParams)
    (s : Sol) : Bool :=
  allT d.nT fun t =>
    (allSeg (numBreakpoints cp) fun i =>
      decide (0 ≤ s.lambdaCal t i) && decide (s.lambdaCal t i ≤ 1)) &&
    decide (0 ≤ s.cCalCost t)

/-- Embeds `calendar_soc_rule`: `Σ_i λ·SOC_i = Σ_j e_soc_j`. -/
def calendarSocCheck (d : CountryData) (dp : DegradationParams)
    (cp : CalendarParams) (s : Sol) : Bool :=
  allT d.nT fun t =>
    decide (((segs (numBreakpoints cp)).map fun i =>
        s.lambdaCal t i * socPoint cp i).sum =
      ((segs dp.numSegments).map (s.eSocJ t)).sum)

/-- Embeds `calendar_cost_rule`: `c_cal_cost = Σ_i λ·Cost_i`. -/
def calendarCostCheck (d : CountryData) (cp : CalendarParams) (s : Sol) :
    Bool :=
  allT d.nT fun t =>
    decide (s.cCalCost t = ((segs (numBreakpoints cp)).map fun i =>
      s.lambdaCal t i * costPoint cp i).sum)

/-- Embeds `calendar_sos2_sum_rule`: `Σ_i λ = 1`. -/
def calendarSos2SumCheck (d : CountryData) (cp : CalendarParams)
    (s : Sol) : Bool :=
  allT d.nT fun t =>
    decide (((segs (numBreakpoints cp)).map (s.lambdaCal t)).sum = 1)

/-- SOS2 membership (`model.calendar_sos2_set`): at most two, and only
adjacent, weights are nonzero. -/
def calendarSos2SetCheck (d : CountryData) (cp : CalendarParams)
    (s : Sol) : Bool :=
  allT d.nT fun t =>
    (segs (numBreakpoints cp)).any fun i =>
      (segs (numBreakpoints cp)).all fun k =>
        decide (k = i) || decide (k = i + 1) ||
        decide (s.lambdaCal t k = 0)

/-- Constraint blocks of Model III: the full Model II list plus the
calendar-aging blocks. -/
def modelIIIChecks (d : CountryData) (p : ModelParams)
    (dp : DegradationParams) (cp : CalendarParams) : List Check :=
  modelIIChecks d p dp ++
  [("calendar_var_bounds", calendarVarBoundsCheck d cp),
   ("calendar_soc_con", calendarSocCheck d dp cp),
   ("calendar_cost_con", calendarCostCheck d cp),
   ("calendar_sos2_sum_con", calendarSos2SumCheck d cp),
   ("calendar_sos2_set", calendarSos2SetCheck d cp)]

/-- Embeds `cost_calendar = Σ_t c_cal_cost[t]·Δt`. -/
def cost_calendar (d : CountryData) (p : ModelParams) (s : Sol) : ℚ :=
  ((List.range d.nT).map fun t => s.cCalCost t * p.dt).sum

/-- Model III objective: the Model II objective minus
`α·cost_calendar`. -/
def objectiveIII (d : CountryData) (p : ModelParams)
    (dp : DegradationParams) (s : Sol) : ℚ :=
  objectiveII d p dp s - dp.alpha * cost_calendar d p s

/-! ## Model III-Renew (`BESSOptimizerModelIIIRenew`) -/

/-- Optional renewable forecast column of the country-data table
(`p_renewable_forecast_kw`); inner `none` entries are `NaN`. -/
def RenewColumn := Option (ℕ → Option ℚ)

/-- Embeds `has_renewable`: the column exists and is not all-`NaN`. -/
def hasRenewable (d : CountryData) (rc : RenewColumn) : Bool :=
  match rc with
  | none => false
  | some f => !(allT d.nT fun t => (f t).isNone)

/-- Embeds `model.P_renewable`: forecast value with `NaN` initialised to `0`. -/
def renewParam (rc : RenewColumn) (t : ℕ) : ℚ :=
  match rc with
  | none => 0
  | some f => (f t).getD 0

/-- Nonnegativity of the renewable split variables
(`domain=NonNegativeReals`). -/
def renewVarBoundsCheck (d : CountryData) (s : Sol) : Bool :=
  allT d.nT fun t =>
    decide (0 ≤ s.pSelf t) && decide (0 ≤ s.pExport t) &&
    decide (0 ≤ s.pCurtail t)

/-- Cst-R1 (`renewable_balance_rule`):
`p_self + p_export + p_curtail = P_renewable`. -/
def renewableBalanceCheck (d : CountryData) (rc : RenewColumn) (s : Sol) :
    Bool :=
  allT d.nT fun t =>
    decide (s.pSelf t + s.pExport t + s.pCurtail t = renewParam rc t)

/-- Cst-R2 (`total_ch_def_renew_rule`), replacing the Model I charge
identity: `p_total_ch = p_ch + p_afrr_neg_e + p_renewable_self`. -/
def totalChDefRenewCheck (d : CountryData) (s : Sol) : Bool :=
  allT d.nT fun t =>
    decide (s.pTotalCh t = s.pCh t + s.pAfrrNegE t + s.pSelf t)

/-- Constraint blocks of Model III-Renew: without usable forecast data
the model falls back to plain Model III; otherwise the renewable blocks
are added and `total_ch_def` is deleted and re-declared with the
self-consumption term. -/
def modelIIIRenewChecks (d : CountryData) (p : ModelParams)
    (dp : DegradationParams) (cp : CalendarParams) (rc : RenewColumn) :
    List Check :=
  if hasRenewable d rc then
    ((modelIIIChecks d p dp cp).filter fun c =>
      !(c.1 = "total_ch_def")) ++
    [("renew_var_bounds", renewVarBoundsCheck d),
     ("renewable_balance", renewableBalanceCheck d rc),
     ("total_ch_def", totalChDefRenewCheck d)]
  else modelIIIChecks d p dp cp

/-- Embeds `model.profit_renewable_export`:
`Σ_t p_renewable_export·P_DA/1000·Δt`. -/
def profit_renewable_export (d : CountryData) (p : ModelParams)
    (s : Sol) : ℚ :=
  ((List.range d.nT).map fun t =>
    s.pExport t * d.priceDayAhead t / 1000 * p.dt).sum

/-- Model III-Renew objective: export revenue is added when renewable
data is present, otherwise the Model III objective is kept. -/
def objectiveIIIRenew (d : CountryData) (p : ModelParams)
    (dp : DegradationParams) (rc : RenewColumn) (s : Sol) : ℚ :=
  if hasRenewable d rc then
    objectiveIII d p dp s + profit_renewable_export d p s
  else objectiveIII d p dp s

/-! ## Concrete fixtures -/

/-- Modelled from the spec: the aging section of `config/Config.yml` is
not under `src/` (only `ConfigLoader` reads it), so its content is taken
from the spec: segment marginal costs as in scenario S3
(`[0.02, 0.05, 0.10, 0.20]` EUR/kWh), `lifo_epsilon_kwh ≈ 5`, and the
strict segment-power-activation mode "Default off"
(`require_sequential_segment_activation = false`). -/
def specAgingConfig : AgingConfig :=
  { costs := [1/50, 1/20, 1/10, 1/5]
    requireSequentialSegmentActivationCfg := some false
    lifoEpsilonKwhCfg := some 5 }

/-- Default model parameters: the hard-coded battery dictionary with the
service default c-rate `0.5` (`P_max = 2250 kW`, `E_soc_init = 2250
kWh`). -/
def pDefault : ModelParams := mkModelParams defaultBatteryParams (1/2)

/-- Degradation parameters obtained from the spec-modelled aging config
with `alpha = 1` and the Python-default constructor argument. -/
def dpSpec : DegradationParams :=
  mkDegradationParams defaultBatteryParams specAgingConfig 1
    requireSeqPythonDefault

/-- One-timestep instance in which the adapter has already replaced the
all-zero aFRR energy prices by `NaN` and every other price is zero. -/
def dZero : CountryData :=
  { nT := 1
    priceDayAhead := fun _ => 0
    priceAfrrEnergyPos := fun _ => none
    priceAfrrEnergyNeg := fun _ => none
    priceFcr := fun _ => 0
    priceAfrrPos := fun _ => 0
    priceAfrrNeg := fun _ => 0
    wAfrrPos := fun _ => 1
    wAfrrNeg := fun _ => 1
    blockMap := fun _ => 0
    blocks := [0]
    days := [0]
    dayToTimes := fun _ => [0] }

/-- The idle primal point: no market action, scalar SOC constant at
`E_soc_init = 2250`, segments filled top-down (`1125, 1125, 0, 0` for the
4-segment spec-modelled configuration). -/
def idleSol : Sol :=
  { pCh := fun _ => 0
    pDis := fun _ => 0
    pAfrrPosE := fun _ => 0
    pAfrrNegE := fun _ => 0
    pTotalCh := fun _ => 0
    pTotalDis := fun _ => 0
    eSoc := fun _ => 2250
    cFcr := fun _ => 0
    cAfrrPos := fun _ => 0
    cAfrrNeg := fun _ => 0
    yTotalCh := fun _ => false
    yTotalDis := fun _ => false
    yFcr := fun _ => false
    yAfrrPos := fun _ => false
    yAfrrNeg := fun _ => false
    pChJ := fun _ _ => 0
    pDisJ := fun _ _ => 0
    eSocJ := fun _ j => if j ≤ 2 then 1125 else 0
    zSeg := fun _ j => decide (j ≤ 2)
    lambdaCal := fun _ i => if i = 1 then 1 else 0
    cCalCost := fun _ => 0
    pSelf := fun _ => 0
    pExport := fun _ => 0
    pCurtail := fun _ => 0 }

/-- A feasible point of the all-zero-price Model I instance that charges
100 kW in the single timestep, moving the SOC away from `E_soc_init`. -/
def chargeSol : Sol :=
  { idleSol with
    pCh := fun _ => 100
    pTotalCh := fun _ => 100
    yTotalCh := fun _ => true
    eSoc := fun _ => 9095/4 }

/-! ## Theorems

Supporting lemmas first, then one theorem per claim. -/

theorem feasible_of_mem {cs : List Check} {s : Sol} (nm : String)
    {f : Sol → Bool} (h : Feasible cs s = true) (hm : (nm, f) ∈ cs) :
    f s = true :=
  List.all_eq_true.mp h _ hm

theorem flatMapRep_length (bp : List ℚ) :
    (bp.flatMap fun price =>
      List.replicate TIMESTEPS_PER_BLOCK price).length = 16 * bp.length := by
  induction bp with
  | nil => simp
  | cons b r ih =>
    simp only [TIMESTEPS_PER_BLOCK] at ih ⊢
    simp only [List.flatMap_cons, List.length_append, List.length_replicate,
      List.length_cons, ih]
    ring

theorem flatMapRep_getD (bp : List ℚ) (k : ℕ) (hk : k < 16 * bp.length) :
    (bp.flatMap fun price =>
      List.replicate TIMESTEPS_PER_BLOCK price).getD k 0 =
      bp.getD (k / 16) 0 := by
  induction bp generalizing k with
  | nil => simp at hk
  | cons b r ih =>
    simp only [TIMESTEPS_PER_BLOCK] at ih ⊢
    rw [List.flatMap_cons]
    by_cases hk16 : k < 16
    · rw [List.getD_append _ _ _ _ (by simpa using hk16)]
      rw [List.getD_eq_getElem?_getD, List.getElem?_replicate]
      have h0 : k / 16 = 0 := Nat.div_eq_of_lt hk16
      simp [h0, hk16]
    · have h16 : 16 ≤ k := Nat.le_of_not_lt hk16
      rw [List.getD_append_right _ _ _ _ (by simp; omega)]
      simp only [List.length_replicate]
      have hlt : k - 16 < 16 * r.length := by
        simp only [List.length_cons] at hk; omega
      rw [ih _ hlt]
      have hdiv : k / 16 = (k - 16) / 16 + 1 := by
        conv_lhs => rw [show k = (k - 16) + 16 by omega]
        rw [Nat.add_div_right _ (by norm_num)]
      rw [hdiv]
      simp [List.getD_cons_succ]

theorem flatMapRep_getLast? (bp : List ℚ) :
    (bp.flatMap fun price =>
      List.replicate TIMESTEPS_PER_BLOCK price).getLast? = bp.getLast? := by
  induction bp with
  | nil => simp
  | cons b r ih =>
    rw [List.flatMap_cons, List.getLast?_append, ih]
    cases hr : r.getLast? with
    | none =>
      have hnil : r = [] := by
        cases r with
        | nil => rfl
        | cons x xs => simp [List.getLast?_eq_getLast] at hr
      subst hnil
      simp [List.getLast?_replicate, TIMESTEPS_PER_BLOCK]
    | some v =>
      have hne : r ≠ [] := by
        intro h; subst h; simp at hr
      simp [Option.or, hr, List.getLast?_cons, hne]

/-- C10: `_expand_block_prices` is total and length-exact: the result has
exactly `n` elements; element `k` is `block_prices[k / 16]` when
`k / 16 < len(block_prices)`, the last block price when the expanded list
falls short of `n`, and `0.0` throughout when the input is empty. -/
theorem c10_expand_block_prices (bp : List ℚ) (n k : ℕ) (hk : k < n) :
    (expandBlockPrices bp n).length = n ∧
    (expandBlockPrices bp n).getD k 0 =
      (if k / 16 < bp.length then bp.getD (k / 16) 0
       else (bp.getLast?).getD 0) := by
  have hlen := flatMapRep_length bp
  simp only [expandBlockPrices]
  set E := bp.flatMap fun price => List.replicate TIMESTEPS_PER_BLOCK price
    with hE
  by_cases hpad : E.length < n
  · simp only [if_pos hpad]
    constructor
    · rw [List.length_take, List.length_append, List.length_replicate]
      omega
    · rw [List.getD_eq_getElem?_getD, List.getElem?_take, if_pos hk,
        ← List.getD_eq_getElem?_getD]
      by_cases hkE : k < E.length
      · rw [List.getD_append _ _ _ _ hkE]
        rw [hE, flatMapRep_getD bp k (by omega)]
        have hq : k / 16 < bp.length := by
          rw [Nat.div_lt_iff_lt_mul (by norm_num)]
          omega
        rw [if_pos hq]
      · rw [List.getD_append_right _ _ _ _ (by omega)]
        rw [List.getD_eq_getElem?_getD, List.getElem?_replicate,
          if_pos (by omega)]
        rw [hE, flatMapRep_getLast? bp]
        have hq : ¬ k / 16 < bp.length := by
          rw [Nat.div_lt_iff_lt_mul (by norm_num)]
          omega
        rw [if_neg hq]
        simp
  · simp only [if_neg hpad]
    constructor
    · rw [List.length_take]
      omega
    · rw [List.getD_eq_getElem?_getD, List.getElem?_take, if_pos hk,
        ← List.getD_eq_getElem?_getD]
      rw [hE, flatMapRep_getD bp k (by omega)]
      have hq : k / 16 < bp.length := by
        rw [Nat.div_lt_iff_lt_mul (by norm_num)]
        omega
      rw [if_pos hq]

/-- Witness for C10 at `block_prices = [7]`, `n = 20`, `k = 17`: one block
expands to 16 entries, the tail is forward-filled with `7`, and the result
has exactly 20 entries. -/
theorem c10_expand_block_prices_witness :
    17 < 20 ∧
    ((expandBlockPrices [7] 20).length = 20 ∧
     (expandBlockPrices [7] 20).getD 17 0 =
       (if 17 / 16 < ([7] : List ℚ).length
        then ([7] : List ℚ).getD (17 / 16) 0
        else ((([7] : List ℚ).getLast?).getD 0))) :=
  ⟨by decide, c10_expand_block_prices [7] 20 17 (by decide)⟩

/-- The Model II constraint list written out: the effect of building the
parent without the daily-cycle limit, deleting the four components of
`deletedInModelII`, and appending the segment blocks. -/
theorem modelIIChecks_eq (d : CountryData) (p : ModelParams)
    (dp : DegradationParams) :
    modelIIChecks d p dp =
      [("var_bounds", varBoundsCheck d p),
       ("no_bid_if_no_afrr_pos_activation", cst0PosCheck d),
       ("no_bid_if_no_afrr_neg_activation", cst0NegCheck d),
       ("total_ch_def", totalChDefCheck d),
       ("total_dis_def", totalDisDefCheck d),
       ("total_ch_binary", totalChBinaryCheck d p),
       ("total_dis_binary", totalDisBinaryCheck d p),
       ("no_simultaneous", noSimultaneousCheck d),
       ("power_dis_reserve_limit", powerDisReserveLimitCheck d p),
       ("power_ch_reserve_limit", powerChReserveLimitCheck d p),
       ("as_market_exclusivity", asMarketExclusivityCheck d)] ++
      (if p.maxAsRatio < 1 then
        [("max_as_reservation", maxAsReservationCheck d p)] else []) ++
      [("cross_market_exclusivity1", crossMarketExclusivity1Check d),
       ("cross_market_exclusivity2", crossMarketExclusivity2Check d),
       ("fcr_bid", fcrBidCheck d p),
       ("afrr_pos_bid", afrrPosBidCheck d p),
       ("afrr_neg_bid", afrrNegBidCheck d p),
       ("segment_var_bounds", segmentVarBoundsCheck d p dp),
       ("energy_reserve_pos", energyReservePosV2Check d p dp),
       ("energy_reserve_neg", energyReserveNegV2Check d p dp),
       ("total_charge_aggregation", totalChargeAggregationCheck d dp),
       ("total_discharge_aggregation", totalDischargeAggregationCheck d dp),
       ("segment_soc_dynamics", segmentSocDynamicsCheck d p dp),
       ("stacked_tank_ordering", stackedTankOrderingCheck d dp),
       ("segment_activation_upper", segmentActivationUpperCheck d dp),
       ("segment_lifo_fullness", segmentLifoFullnessCheck d dp)] ++
      (if dp.requireSequentialSegmentActivation then
        [("segment_charge_activation", segmentChargeActivationCheck d p dp),
         ("segment_discharge_activation",
           segmentDischargeActivationCheck d p dp)]
       else []) := by
  by_cases h : p.maxAsRatio < 1 <;>
    simp [modelIIChecks, modelIChecks, deletedInModelII, h]

theorem mem_modelII_of_memI {d : CountryData} {p : ModelParams}
    {dp : DegradationParams} {nm : String} {f : Sol → Bool}
    (hm : (nm, f) ∈ modelIChecks d p none)
    (hd : (!deletedInModelII.contains nm) = true) :
    (nm, f) ∈ modelIIChecks d p dp :=
  List.mem_append_left _ (List.mem_append_left _
    (List.mem_filter.mpr ⟨hm, hd⟩))

theorem mem_modelIII_of_memII {d : CountryData} {p : ModelParams}
    {dp : DegradationParams} {cp : CalendarParams} {c : Check}
    (hm : c ∈ modelIIChecks d p dp) : c ∈ modelIIIChecks d p dp cp :=
  List.mem_append_left _ hm

theorem mem_modelIIIRenew_of_memIII {d : CountryData} {p : ModelParams}
    {dp : DegradationParams} {cp : CalendarParams} {rc : RenewColumn}
    {nm : String} {f : Sol → Bool}
    (hm : (nm, f) ∈ modelIIIChecks d p dp cp)
    (hne : (!decide (nm = "total_ch_def")) = true) :
    (nm, f) ∈ modelIIIRenewChecks d p dp cp rc := by
  unfold modelIIIRenewChecks
  by_cases hr : hasRenewable d rc
  · rw [if_pos hr]
    exact List.mem_append_left _ (List.mem_filter.mpr ⟨hm, hne⟩)
  · rw [if_neg hr]
    exact hm

/-- The component names of the Model II build. -/
theorem modelIIChecks_names (d : CountryData) (p : ModelParams)
    (dp : DegradationParams) :
    (modelIIChecks d p dp).map Prod.fst =
      ["var_bounds", "no_bid_if_no_afrr_pos_activation",
       "no_bid_if_no_afrr_neg_activation", "total_ch_def", "total_dis_def",
       "total_ch_binary", "total_dis_binary", "no_simultaneous",
       "power_dis_reserve_limit", "power_ch_reserve_limit",
       "as_market_exclusivity"] ++
      (if p.maxAsRatio < 1 then ["max_as_reservation"] else []) ++
      ["cross_market_exclusivity1", "cross_market_exclusivity2",
       "fcr_bid", "afrr_pos_bid", "afrr_neg_bid", "segment_var_bounds",
       "energy_reserve_pos", "energy_reserve_neg",
       "total_charge_aggregation", "total_discharge_aggregation",
       "segment_soc_dynamics", "stacked_tank_ordering",
       "segment_activation_upper", "segment_lifo_fullness"] ++
      (if dp.requireSequentialSegmentActivation then
        ["segment_charge_activation", "segment_discharge_activation"]
       else []) := by
  rw [modelIIChecks_eq]
  by_cases h1 : p.maxAsRatio < 1 <;>
    by_cases h2 : dp.requireSequentialSegmentActivation <;>
      simp [h1, h2]

theorem soc_dynamics_not_in_modelII (d : CountryData) (p : ModelParams)
    (dp : DegradationParams) :
    "soc_dynamics" ∉ (modelIIChecks d p dp).map Prod.fst := by
  rw [modelIIChecks_names]
  by_cases h1 : p.maxAsRatio < 1 <;>
    by_cases h2 : dp.requireSequentialSegmentActivation <;>
      simp [h1, h2]

/-- C1: zero-means-inactive.  In every model build a feasible solution
has `p_afrr_pos_e[t] = 0` whenever `price_afrr_energy_pos[t]` is `NaN`
(symmetrically for the negative direction), and the input adapter turns
exactly the aFRR energy prices equal to `0` (and the already-`NaN` ones)
into `NaN` before the build. -/
theorem c1_zero_means_inactive (d : CountryData) (p : ModelParams)
    (dcl : Option ℚ) (dp : DegradationParams) (cp : CalendarParams)
    (rc : RenewColumn) (s : Sol) (t : ℕ) (ht : t < d.nT)
    (hf : Feasible (modelIChecks d p dcl) s = true ∨
          Feasible (modelIIChecks d p dp) s = true ∨
          Feasible (modelIIIChecks d p dp cp) s = true ∨
          Feasible (modelIIIRenewChecks d p dp cp rc) s = true) :
    (d.priceAfrrEnergyPos t = none → s.pAfrrPosE t = 0) ∧
    (d.priceAfrrEnergyNeg t = none → s.pAfrrNegE t = 0) ∧
    (∀ x : Option ℚ, replaceZeroWithNaN x = none ↔
      (x = none ∨ x = some 0)) := by
  have hpos : cst0PosCheck d s = true := by
    rcases hf with h | h | h | h
    · exact feasible_of_mem "no_bid_if_no_afrr_pos_activation" h
        (by simp [modelIChecks])
    · exact feasible_of_mem "no_bid_if_no_afrr_pos_activation" h
        (mem_modelII_of_memI (by simp [modelIChecks]) (by rfl))
    · exact feasible_of_mem "no_bid_if_no_afrr_pos_activation" h
        (mem_modelIII_of_memII
          (mem_modelII_of_memI (by simp [modelIChecks]) (by rfl)))
    · exact feasible_of_mem "no_bid_if_no_afrr_pos_activation" h
        (mem_modelIIIRenew_of_memIII
          (mem_modelIII_of_memII
            (mem_modelII_of_memI (by simp [modelIChecks]) (by rfl)))
          (by rfl))
  have hneg : cst0NegCheck d s = true := by
    rcases hf with h | h | h | h
    · exact feasible_of_mem "no_bid_if_no_afrr_neg_activation" h
        (by simp [modelIChecks])
    · exact feasible_of_mem "no_bid_if_no_afrr_neg_activation" h
        (mem_modelII_of_memI (by simp [modelIChecks]) (by rfl))
    · exact feasible_of_mem "no_bid_if_no_afrr_neg_activation" h
        (mem_modelIII_of_memII
          (mem_modelII_of_memI (by simp [modelIChecks]) (by rfl)))
    · exact feasible_of_mem "no_bid_if_no_afrr_neg_activation" h
        (mem_modelIIIRenew_of_memIII
          (mem_modelIII_of_memII
            (mem_modelII_of_memI (by simp [modelIChecks]) (by rfl)))
          (by rfl))
  refine ⟨?_, ?_, ?_⟩
  · intro hnan
    have h1 := allT_imp hpos ht
    simp only [cst0PosCheck] at h1
    rw [hnan] at h1
    exact of_decide_eq_true h1
  · intro hnan
    have h1 := allT_imp hneg ht
    simp only [cst0NegCheck] at h1
    rw [hnan] at h1
    exact of_decide_eq_true h1
  · intro x
    cases x with
    | none => simp [replaceZeroWithNaN]
    | some q =>
      by_cases hq : q = 0 <;> simp [replaceZeroWithNaN, hq]

/-- Witness for C1: the idle solution is feasible for the all-zero-price
Model I instance, whose aFRR energy prices are `NaN`, and its aFRR energy
bids are zero. -/
theorem c1_zero_means_inactive_witness :
    0 < dZero.nT ∧
    Feasible (modelIChecks dZero pDefault (some 1)) idleSol = true ∧
    ((dZero.priceAfrrEnergyPos 0 = none → idleSol.pAfrrPosE 0 = 0) ∧
     (dZero.priceAfrrEnergyNeg 0 = none → idleSol.pAfrrNegE 0 = 0) ∧
     (∀ x : Option ℚ, replaceZeroWithNaN x = none ↔
       (x = none ∨ x = some 0))) := by
  have feasI : Feasible (modelIChecks dZero pDefault (some 1)) idleSol
      = true := by
    norm_num [Feasible, modelIChecks, varBoundsCheck, eSocBoundsCheck,
      cst0PosCheck, cst0NegCheck, totalChDefCheck, totalDisDefCheck,
      socDynamicsCheck, totalChBinaryCheck, totalDisBinaryCheck,
      noSimultaneousCheck, powerDisReserveLimitCheck,
      powerChReserveLimitCheck, dailyCycleCheck, energyReservePosCheck,
      energyReserveNegCheck, asMarketExclusivityCheck,
      maxAsReservationCheck, crossMarketExclusivity1Check,
      crossMarketExclusivity2Check, fcrBidCheck, afrrNegBidCheck,
      afrrPosBidCheck, allT, dZero, pDefault, idleSol, b2q, mkModelParams,
      defaultBatteryParams, List.range_succ]
  exact ⟨by decide, feasI,
    c1_zero_means_inactive dZero pDefault (some 1) dpSpec ⟨[], []⟩ none
      idleSol 0 (by decide) (Or.inl feasI)⟩

/-- C2 counterexample: with the default battery parameters the builder
exposes `η_ch = η_dis = 0.95` applied per direction, so the round-trip
efficiency is `0.9025`, not `0.95`; hence the per-direction efficiency is
not `√0.95`. -/
theorem c2_sqrt_efficiency_counterexample :
    pDefault.etaCh = 19/20 ∧ pDefault.etaDis = 19/20 ∧
    pDefault.etaCh * pDefault.etaDis ≠ 19/20 := by
  norm_num [pDefault, mkModelParams, defaultBatteryParams]

/-- C2 (amended): the builder exposes `η_ch = η_dis = efficiency`, the
configured value taken as-is in each direction (default `0.95`), and the
SOC dynamics constraint of every build uses exactly these values. -/
theorem c2_efficiency_amended (bp : BatteryParams) (cRate : ℚ)
    (d : CountryData) (dcl : Option ℚ) (s : Sol) (t : ℕ) (ht : t < d.nT)
    (hf : Feasible (modelIChecks d (mkModelParams bp cRate) dcl) s
      = true) :
    (mkModelParams bp cRate).etaCh = bp.efficiency ∧
    (mkModelParams bp cRate).etaDis = bp.efficiency ∧
    defaultBatteryParams.efficiency = 19/20 ∧
    s.eSoc t =
      (if t = 0 then bp.initialSoc * bp.capacityKwh else s.eSoc (t - 1)) +
      (bp.efficiency * s.pTotalCh t - s.pTotalDis t / bp.efficiency) *
        (1/4) := by
  have hd : socDynamicsCheck d (mkModelParams bp cRate) s = true :=
    feasible_of_mem "soc_dynamics" hf (by simp [modelIChecks])
  have h1 := allT_imp hd ht
  simp only [socDynamicsCheck, mkModelParams] at h1
  refine ⟨rfl, rfl, rfl, ?_⟩
  by_cases ht0 : t = 0
  · rw [if_pos ht0]
    rw [if_pos ht0] at h1
    exact of_decide_eq_true h1
  · rw [if_neg ht0]
    rw [if_neg ht0] at h1
    exact of_decide_eq_true h1

/-- Witness for C2 (amended) at the default parameters and the idle
solution of the all-zero-price instance. -/
theorem c2_efficiency_amended_witness :
    0 < dZero.nT ∧
    Feasible (modelIChecks dZero
      (mkModelParams defaultBatteryParams (1/2)) (some 1)) idleSol
      = true ∧
    ((mkModelParams defaultBatteryParams (1/2)).etaCh =
        defaultBatteryParams.efficiency ∧
     (mkModelParams defaultBatteryParams (1/2)).etaDis =
        defaultBatteryParams.efficiency ∧
     defaultBatteryParams.efficiency = 19/20 ∧
     idleSol.eSoc 0 =
       (if 0 = 0 then
          defaultBatteryParams.initialSoc * defaultBatteryParams.capacityKwh
        else idleSol.eSoc (0 - 1)) +
       (defaultBatteryParams.efficiency * idleSol.pTotalCh 0 -
         idleSol.pTotalDis 0 / defaultBatteryParams.efficiency) *
         (1/4)) := by
  have feasI : Feasible (modelIChecks dZero
      (mkModelParams defaultBatteryParams (1/2)) (some 1)) idleSol
      = true := by
    norm_num [Feasible, modelIChecks, varBoundsCheck, eSocBoundsCheck,
      cst0PosCheck, cst0NegCheck, totalChDefCheck, totalDisDefCheck,
      socDynamicsCheck, totalChBinaryCheck, totalDisBinaryCheck,
      noSimultaneousCheck, powerDisReserveLimitCheck,
      powerChReserveLimitCheck, dailyCycleCheck, energyReservePosCheck,
      energyReserveNegCheck, asMarketExclusivityCheck,
      maxAsReservationCheck, crossMarketExclusivity1Check,
      crossMarketExclusivity2Check, fcrBidCheck, afrrNegBidCheck,
      afrrPosBidCheck, allT, dZero, idleSol, b2q, mkModelParams,
      defaultBatteryParams, List.range_succ]
  exact ⟨by decide, feasI,
    c2_efficiency_amended defaultBatteryParams (1/2) dZero (some 1)
      idleSol 0 (by decide) feasI⟩

/-- C3: in every Model II (and hence III) build the energy-reserve
constraints bind the aggregate segment-SOC expression, and the Model I
scalar SOC dynamics component is removed from the model. -/
theorem c3_cst6_redeclared (d : CountryData) (p : ModelParams)
    (dp : DegradationParams) (s : Sol) (t : ℕ) (ht : t < d.nT)
    (hf : Feasible (modelIIChecks d p dp) s = true) :
    ((1000 * s.cFcr (d.blockMap t) + 1000 * s.cAfrrPos (d.blockMap t)) *
        p.tau / p.etaDis ≤ aggSoc dp s t - p.socMin * p.Enom) ∧
    ((1000 * s.cFcr (d.blockMap t) + 1000 * s.cAfrrNeg (d.blockMap t)) *
        p.tau * p.etaCh ≤ p.socMax * p.Enom - aggSoc dp s t) ∧
    "soc_dynamics" ∉ (modelIIChecks d p dp).map Prod.fst := by
  have h1 : energyReservePosV2Check d p dp s = true :=
    feasible_of_mem "energy_reserve_pos" hf (by simp [modelIIChecks])
  have h2 : energyReserveNegV2Check d p dp s = true :=
    feasible_of_mem "energy_reserve_neg" hf (by simp [modelIIChecks])
  exact ⟨of_decide_eq_true (allT_imp h1 ht),
    of_decide_eq_true (allT_imp h2 ht),
    soc_dynamics_not_in_modelII d p dp⟩

/-- Witness for C3: the idle solution of the all-zero-price instance is
Model II feasible and satisfies the re-declared reserve bounds. -/
theorem c3_cst6_redeclared_witness :
    0 < dZero.nT ∧
    Feasible (modelIIChecks dZero pDefault dpSpec) idleSol = true ∧
    (((1000 * idleSol.cFcr (dZero.blockMap 0) +
        1000 * idleSol.cAfrrPos (dZero.blockMap 0)) *
        pDefault.tau / pDefault.etaDis ≤
        aggSoc dpSpec idleSol 0 - pDefault.socMin * pDefault.Enom) ∧
     ((1000 * idleSol.cFcr (dZero.blockMap 0) +
        1000 * idleSol.cAfrrNeg (dZero.blockMap 0)) *
        pDefault.tau * pDefault.etaCh ≤
        pDefault.socMax * pDefault.Enom - aggSoc dpSpec idleSol 0) ∧
     "soc_dynamics" ∉ (modelIIChecks dZero pDefault dpSpec).map
        Prod.fst) := by
  have feasII : Feasible (modelIIChecks dZero pDefault dpSpec) idleSol
      = true := by
    rw [modelIIChecks_eq]
    norm_num [Feasible, varBoundsCheck, cst0PosCheck, cst0NegCheck,
      totalChDefCheck, totalDisDefCheck, totalChBinaryCheck,
      totalDisBinaryCheck, noSimultaneousCheck, powerDisReserveLimitCheck,
      powerChReserveLimitCheck, asMarketExclusivityCheck,
      maxAsReservationCheck, crossMarketExclusivity1Check,
      crossMarketExclusivity2Check, fcrBidCheck, afrrPosBidCheck,
      afrrNegBidCheck, segmentVarBoundsCheck, energyReservePosV2Check,
      energyReserveNegV2Check, totalChargeAggregationCheck,
      totalDischargeAggregationCheck, segmentSocDynamicsCheck,
      stackedTankOrderingCheck, segmentActivationUpperCheck,
      segmentLifoFullnessCheck, segmentChargeActivationCheck,
      segmentDischargeActivationCheck, aggSoc, initialSegmentSoc, segs,
      allSeg, allT, dZero, pDefault, idleSol, dpSpec, b2q, mkModelParams,
      defaultBatteryParams, mkDegradationParams, specAgingConfig,
      requireSeqPythonDefault, List.range_succ]
  exact ⟨by decide, feasII,
    c3_cst6_redeclared dZero pDefault dpSpec idleSol 0 (by decide) feasII⟩

/-- C4: LIFO fullness.  In a Model II/III build any feasible solution in
which segment `j ≥ 2` holds energy has segment `j−1` full to within
`ε = lifo_epsilon_kwh`, whose default resolution is `5` kWh when the
aging config omits the key. -/
theorem c4_lifo_fullness (d : CountryData) (p : ModelParams)
    (dp : DegradationParams) (s : Sol) (t j : ℕ) (ht : t < d.nT)
    (hj2 : 2 ≤ j) (hjJ : j ≤ dp.numSegments)
    (hf : Feasible (modelIIChecks d p dp) s = true)
    (hpos : 0 < s.eSocJ t j) :
    s.eSocJ t (j - 1) ≥ dp.segmentCapacityKwh - dp.lifoEpsilonKwh ∧
    (∀ (bp : BatteryParams) (cfg : AgingConfig) (a : ℚ) (r : Bool),
      cfg.lifoEpsilonKwhCfg = none →
      (mkDegradationParams bp cfg a r).lifoEpsilonKwh = 5) := by
  have hup : segmentActivationUpperCheck d dp s = true :=
    feasible_of_mem "segment_activation_upper" hf (by simp [modelIIChecks])
  have hlifo : segmentLifoFullnessCheck d dp s = true :=
    feasible_of_mem "segment_lifo_fullness" hf (by simp [modelIIChecks])
  have hu1 := allSeg_imp (allT_imp hup ht) (by omega) hjJ
  have hu2 := of_decide_eq_true hu1
  have hl1 := allSeg_imp (allT_imp hlifo ht) (by omega) hjJ
  rw [if_neg (by omega : ¬ j = 1)] at hl1
  have hl2 := of_decide_eq_true hl1
  constructor
  · cases hz : s.zSeg t j with
    | false =>
      exfalso
      rw [hz] at hu2
      simp only [b2q, Bool.false_eq_true, if_false, mul_zero] at hu2
      linarith
    | true =>
      rw [hz] at hl2
      simp only [b2q, if_true, mul_one] at hl2
      linarith
  · intro bp cfg a r hnone
    simp [mkDegradationParams, hnone]

/-- Witness for C4: in the idle solution segment 2 holds `1125` kWh and
segment 1 is full (`1125 ≥ 1125 − 5`). -/
theorem c4_lifo_fullness_witness :
    0 < dZero.nT ∧ 2 ≤ 2 ∧ 2 ≤ dpSpec.numSegments ∧
    Feasible (modelIIChecks dZero pDefault dpSpec) idleSol = true ∧
    0 < idleSol.eSocJ 0 2 ∧
    (idleSol.eSocJ 0 (2 - 1) ≥
        dpSpec.segmentCapacityKwh - dpSpec.lifoEpsilonKwh ∧
     (∀ (bp : BatteryParams) (cfg : AgingConfig) (a : ℚ) (r : Bool),
       cfg.lifoEpsilonKwhCfg = none →
       (mkDegradationParams bp cfg a r).lifoEpsilonKwh = 5)) := by
  have feasII : Feasible (modelIIChecks dZero pDefault dpSpec) idleSol
      = true := by
    rw [modelIIChecks_eq]
    norm_num [Feasible, varBoundsCheck, cst0PosCheck, cst0NegCheck,
      totalChDefCheck, totalDisDefCheck, totalChBinaryCheck,
      totalDisBinaryCheck, noSimultaneousCheck, powerDisReserveLimitCheck,
      powerChReserveLimitCheck, asMarketExclusivityCheck,
      maxAsReservationCheck, crossMarketExclusivity1Check,
      crossMarketExclusivity2Check, fcrBidCheck, afrrPosBidCheck,
      afrrNegBidCheck, segmentVarBoundsCheck, energyReservePosV2Check,
      energyReserveNegV2Check, totalChargeAggregationCheck,
      totalDischargeAggregationCheck, segmentSocDynamicsCheck,
      stackedTankOrderingCheck, segmentActivationUpperCheck,
      segmentLifoFullnessCheck, segmentChargeActivationCheck,
      segmentDischargeActivationCheck, aggSoc, initialSegmentSoc, segs,
      allSeg, allT, dZero, pDefault, idleSol, dpSpec, b2q, mkModelParams,
      defaultBatteryParams, mkDegradationParams, specAgingConfig,
      requireSeqPythonDefault, List.range_succ]
  refine ⟨by decide, by decide, ?_, feasII, ?_, ?_⟩
  · norm_num [dpSpec, mkDegradationParams, specAgingConfig]
  · norm_num [idleSol]
  · exact c4_lifo_fullness dZero pDefault dpSpec idleSol 0 2 (by decide)
      (by decide)
      (by norm_num [dpSpec, mkDegradationParams, specAgingConfig])
      feasII (by norm_num [idleSol])

/-- C5: the ancillary-service capacity profit is
`Σ_b (P_FCR·c_fcr + P_aFRR_pos·c_afrr_pos + P_aFRR_neg·c_afrr_neg)` with
each block price applied once and no block-duration factor, and this
expression is the capacity term of the objective of all four model
variants. -/
theorem c5_capacity_profit (d : CountryData) (p : ModelParams)
    (dp : DegradationParams) (rc : RenewColumn) (s : Sol) :
    profit_as_capacity d s = (d.blocks.map fun b =>
      d.priceFcr b * s.cFcr b + d.priceAfrrPos b * s.cAfrrPos b +
      d.priceAfrrNeg b * s.cAfrrNeg b).sum ∧
    objectiveI d p s = profit_da d p s + profit_afrr_energy d p s +
      profit_as_capacity d s ∧
    objectiveII d p dp s = profit_da d p s + profit_afrr_energy d p s +
      profit_as_capacity d s - dp.alpha * cost_cyclic d p dp s ∧
    objectiveIII d p dp s = profit_da d p s + profit_afrr_energy d p s +
      profit_as_capacity d s - dp.alpha * cost_cyclic d p dp s -
      dp.alpha * cost_calendar d p s ∧
    objectiveIIIRenew d p dp rc s = objectiveIII d p dp s +
      (if hasRenewable d rc then profit_renewable_export d p s else 0) := by
  refine ⟨rfl, rfl, rfl, rfl, ?_⟩
  unfold objectiveIIIRenew
  by_cases hr : hasRenewable d rc
  · rw [if_pos hr, if_pos hr]
  · rw [if_neg hr, if_neg hr, add_zero]

/-- C6 counterexample: an infeasible termination is reported with status
`"failed"`, which is none of `"infeasible"`, `"timeout"`, `"error"`. -/
theorem c6_failed_status_counterexample :
    extractStatus false TerminationCondition.infeasible = "failed" ∧
    ¬(extractStatus false TerminationCondition.infeasible = "infeasible" ∨
      extractStatus false TerminationCondition.infeasible = "timeout" ∨
      extractStatus false TerminationCondition.infeasible = "error") := by
  decide

/-- C6 (amended): for every non-optimal, non-feasible termination the
extractor returns status `"failed"` (or `"error"` on the exception path)
without raising, and the service then emits a result with an empty
schedule carrying that status, which is never `"optimal"` or
`"feasible"`. -/
theorem c6_failed_solves_amended (tc : TerminationCondition)
    (hasErrorAttr : Bool) (n : ℕ)
    (h1 : tc ≠ TerminationCondition.optimal)
    (h2 : tc ≠ TerminationCondition.feasible) :
    (extractStatus hasErrorAttr tc = "failed" ∨
     extractStatus hasErrorAttr tc = "error") ∧
    buildResultStatusSchedule (extractStatus hasErrorAttr tc) n =
      (extractStatus hasErrorAttr tc, 0) ∧
    extractStatus hasErrorAttr tc ≠ "optimal" ∧
    extractStatus hasErrorAttr tc ≠ "feasible" := by
  cases hasErrorAttr <;> cases tc <;>
    simp_all [extractStatus, buildResultStatusSchedule]

/-- Witness for C6 at the infeasible termination without an error
attribute. -/
theorem c6_failed_solves_witness :
    TerminationCondition.infeasible ≠ TerminationCondition.optimal ∧
    TerminationCondition.infeasible ≠ TerminationCondition.feasible ∧
    ((extractStatus false TerminationCondition.infeasible = "failed" ∨
      extractStatus false TerminationCondition.infeasible = "error") ∧
     buildResultStatusSchedule
       (extractStatus false TerminationCondition.infeasible) 8 =
       (extractStatus false TerminationCondition.infeasible, 0) ∧
     extractStatus false TerminationCondition.infeasible ≠ "optimal" ∧
     extractStatus false TerminationCondition.infeasible ≠ "feasible") :=
  ⟨by decide, by decide,
   c6_failed_solves_amended TerminationCondition.infeasible false 8
     (by decide) (by decide)⟩

/-- C7: with the spec-modelled aging config the strict-mode flag resolves
to `false`, so the segment power activation constraints are absent from
the Model II build, and in general they are present exactly when
`require_sequential_segment_activation` resolves to `true`. -/
theorem c7_strict_mode_default (d : CountryData) (p : ModelParams)
    (bp : BatteryParams) (a : ℚ) (rArg : Bool) :
    (mkDegradationParams bp specAgingConfig a rArg).requireSequentialSegmentActivation = false ∧
    "segment_charge_activation" ∉
      (modelIIChecks d p
        (mkDegradationParams bp specAgingConfig a rArg)).map Prod.fst ∧
    "segment_discharge_activation" ∉
      (modelIIChecks d p
        (mkDegradationParams bp specAgingConfig a rArg)).map Prod.fst ∧
    (∀ dp : DegradationParams,
      ("segment_charge_activation" ∈
          (modelIIChecks d p dp).map Prod.fst ↔
        dp.requireSequentialSegmentActivation = true)) := by
  have hflag : (mkDegradationParams bp specAgingConfig a
      rArg).requireSequentialSegmentActivation = false := by
    simp [mkDegradationParams, specAgingConfig]
  have hmemIff : ∀ dp : DegradationParams,
      ("segment_charge_activation" ∈
          (modelIIChecks d p dp).map Prod.fst ↔
        dp.requireSequentialSegmentActivation = true) := by
    intro dp
    rw [modelIIChecks_names]
    by_cases h1 : p.maxAsRatio < 1 <;>
      by_cases h2 : dp.requireSequentialSegmentActivation <;>
        simp [h1, h2]
  refine ⟨hflag, ?_, ?_, hmemIff⟩
  · intro hmem
    have := (hmemIff _).mp hmem
    rw [hflag] at this
    exact Bool.false_ne_true this
  · rw [modelIIChecks_names]
    by_cases h1 : p.maxAsRatio < 1 <;> simp [h1, hflag]

/-- C8 counterexample: for the all-zero-price Model I instance the
charging solution is feasible with objective `0` — hence optimal, since
every feasible solution has objective `0` — yet its SOC trajectory is not
constant at `E_soc_init`. -/
theorem c8_constant_trajectory_counterexample :
    Feasible (modelIChecks dZero pDefault (some 1)) chargeSol = true ∧
    objectiveI dZero pDefault chargeSol = 0 ∧
    chargeSol.eSoc 0 ≠ pDefault.EsocInit := by
  refine ⟨?_, ?_, ?_⟩
  · norm_num [Feasible, modelIChecks, varBoundsCheck, eSocBoundsCheck,
      cst0PosCheck, cst0NegCheck, totalChDefCheck, totalDisDefCheck,
      socDynamicsCheck, totalChBinaryCheck, totalDisBinaryCheck,
      noSimultaneousCheck, powerDisReserveLimitCheck,
      powerChReserveLimitCheck, dailyCycleCheck, energyReservePosCheck,
      energyReserveNegCheck, asMarketExclusivityCheck,
      maxAsReservationCheck, crossMarketExclusivity1Check,
      crossMarketExclusivity2Check, fcrBidCheck, afrrNegBidCheck,
      afrrPosBidCheck, allT, dZero, pDefault, idleSol, chargeSol, b2q,
      mkModelParams, defaultBatteryParams, List.range_succ]
  · norm_num [objectiveI, profit_da, profit_afrr_energy,
      profit_as_capacity, afrrEPriceParam, dZero, chargeSol, idleSol,
      List.range_succ]
  · norm_num [chargeSol, idleSol, pDefault, mkModelParams,
      defaultBatteryParams]

/-- C8 (amended): for the all-zero-price, `NaN`-preprocessed Model I
instance every feasible solution has objective exactly `0`, and the idle
solution with `e_soc` constant at `E_soc_init` is feasible — hence the
optimal objective is `0` and the constant trajectory is among the optima
(but, per the counterexample, not the only one). -/
theorem c8_zero_prices_amended (s : Sol)
    (hf : Feasible (modelIChecks dZero pDefault (some 1)) s = true) :
    objectiveI dZero pDefault s = 0 ∧
    Feasible (modelIChecks dZero pDefault (some 1)) idleSol = true ∧
    allT dZero.nT (fun t => idleSol.eSoc t = pDefault.EsocInit) = true := by
  refine ⟨?_, ?_, ?_⟩
  · norm_num [objectiveI, profit_da, profit_afrr_energy,
      profit_as_capacity, afrrEPriceParam, dZero, List.range_succ]
  · norm_num [Feasible, modelIChecks, varBoundsCheck, eSocBoundsCheck,
      cst0PosCheck, cst0NegCheck, totalChDefCheck, totalDisDefCheck,
      socDynamicsCheck, totalChBinaryCheck, totalDisBinaryCheck,
      noSimultaneousCheck, powerDisReserveLimitCheck,
      powerChReserveLimitCheck, dailyCycleCheck, energyReservePosCheck,
      energyReserveNegCheck, asMarketExclusivityCheck,
      maxAsReservationCheck, crossMarketExclusivity1Check,
      crossMarketExclusivity2Check, fcrBidCheck, afrrNegBidCheck,
      afrrPosBidCheck, allT, dZero, pDefault, idleSol, b2q, mkModelParams,
      defaultBatteryParams, List.range_succ]
  · norm_num [allT, dZero, idleSol, pDefault, mkModelParams,
      defaultBatteryParams, List.range_succ]

/-- Witness for C8 (amended) at the idle solution. -/
theorem c8_zero_prices_amended_witness :
    Feasible (modelIChecks dZero pDefault (some 1)) idleSol = true ∧
    (objectiveI dZero pDefault idleSol = 0 ∧
     Feasible (modelIChecks dZero pDefault (some 1)) idleSol = true ∧
     allT dZero.nT (fun t => idleSol.eSoc t = pDefault.EsocInit)
       = true) := by
  have feasI : Feasible (modelIChecks dZero pDefault (some 1)) idleSol
      = true := by
    norm_num [Feasible, modelIChecks, varBoundsCheck, eSocBoundsCheck,
      cst0PosCheck, cst0NegCheck, totalChDefCheck, totalDisDefCheck,
      socDynamicsCheck, totalChBinaryCheck, totalDisBinaryCheck,
      noSimultaneousCheck, powerDisReserveLimitCheck,
      powerChReserveLimitCheck, dailyCycleCheck, energyReservePosCheck,
      energyReserveNegCheck, asMarketExclusivityCheck,
      maxAsReservationCheck, crossMarketExclusivity1Check,
      crossMarketExclusivity2Check, fcrBidCheck, afrrNegBidCheck,
      afrrPosBidCheck, allT, dZero, pDefault, idleSol, b2q, mkModelParams,
      defaultBatteryParams, List.range_succ]
  exact ⟨feasI, c8_zero_prices_amended idleSol feasI⟩

/-- C9 counterexample: the `OptimizationInput` validator accepts
`c_rate = 3`, although `3 > 2`. -/
theorem c9_c_rate_counterexample :
    c_rate_must_be_positive 3 = Except.ok 3 ∧ ¬((3 : ℚ) ≤ 2) := by
  constructor
  · rw [c_rate_must_be_positive, if_neg (by norm_num)]
  · norm_num

/-- C9 (amended): the service-layer `OptimizationInput` validator fails
exactly when `c_rate ≤ 0` and accepts every positive c-rate, values above
`2` included; the `(0, 2]` rule is enforced only by the HTTP
`OptimizeRequest` schema (`Field(0.5, gt=0, le=2.0)`). -/
theorem c9_c_rate_amended (v : ℚ) :
    (c_rate_must_be_positive v = Except.ok v ↔ 0 < v) ∧
    (optimizeRequestCRateValid v = true ↔ (0 < v ∧ v ≤ 2)) := by
  constructor
  · rw [c_rate_must_be_positive]
    by_cases h : v ≤ 0
    · rw [if_pos h]
      constructor
      · intro hh
        exact absurd hh (by simp)
      · intro hv
        linarith
    · rw [if_neg h]
      push_neg at h
      exact ⟨fun _ => h, fun _ => rfl⟩
  · simp [optimizeRequestCRateValid]

end GridKey
